import Mathlib

/-!
Verification development for the session layer of an encrypted,
message-framed transport (src/src/models/session.rs).

The Session's methods are embedded as functions in a state-and-trace
monad `M`: each operation returns an outcome (ok / error / panic), the
updated session state, and the list of socket-level I/O events it
performed, in order.  External collaborators (socket, key exchange,
framing codecs, request parser) live outside src/ and are modelled from
the spec's collaborator contracts; each such definition says so in its
doc comment.  Rust's `u8`/`u32` values are represented by `Nat`,
byte strings by `List Nat`, and async effects by sequencing in `M`
(the model is single-threaded, matching one call at a time).
-/

/-- Errors surfaced by the session layer (anyhow errors and the
`Exception` enum collapsed to the cases the session code can produce). -/
inductive SessError where
  | connectionClosed
  | unknownHandshakeFlag
  | invalidKeyPair
  | socketErr
  | badRequest
deriving DecidableEq, Repr

/-- Result of running one session operation: normal return, an error
result (Rust `Err`), or a Rust panic (e.g. `Option::unwrap` on `None`). -/
inductive Outcome (α : Type) where
  | ok : α → Outcome α
  | err : SessError → Outcome α
  | panic : Outcome α
deriving DecidableEq, Repr

/-- Socket-level I/O events, recorded in the order the code performs
them.  Payloads record what was written to or read from the wire. -/
inductive Ev where
  | sockSend : List Nat → Ev
  | sockRecvUsize : Nat → Ev
  | sockRecvStr : String → Ev
  | sockPeerAddr : String → Ev
  | sockClose : Ev
  | okeFromStreamWithSalt : Nat → Nat → Ev
  | okeToStream : Nat → Ev
  | okeToStreamWithSalt : Nat → Nat → Ev
  | okeFromStream : Nat → Ev
  | oscToStream : Nat → Ev
  | oscFromStream : Nat → Ev
  | oedToStream : Option (List Nat) → List Nat → Ev
  | oedFromStream : Option (List Nat) → List Nat → Ev
deriving DecidableEq, Repr

/-- Modelled from the spec: the RequestParser's request value
(`utils::parser::OblivionRequest`, outside src/) — parsed header,
remote peer address, and a settable derived-key field. -/
structure OblivionRequest where
  header : String
  remote_peer : Option String
  aes_key : Option (List Nat)
deriving DecidableEq, Repr

/-- The Session struct of src/src/models/session.rs (ring back-end,
i.e. without the `unsafe` feature): `private_key` is an `Option` that
is taken exactly once; `closed` is the RwLock-guarded flag.  The state
of the shared underlying socket is carried alongside as
`socketClosed`. -/
structure Session where
  header : Option String
  private_key : Option Nat
  public_key : Nat
  aes_key : Option (List Nat)
  request_time : Nat
  request : Option OblivionRequest
  socketClosed : Bool
  closed : Bool
deriving DecidableEq, Repr

/-- Environment of one call: the data the peer/transport supplies to
each read the operation may perform, and whether the transport's
close operation fails. -/
structure Env where
  peerAddr : String
  headerLen : Nat
  headerStr : String
  peerPub : Nat
  peerSalt : Nat
  genSalt : Nat
  recvFlag : Nat
  recvData : List Nat
  recvStatus : Nat
  sockCloseFails : Bool
deriving DecidableEq, Repr

/-- State-and-trace monad: an operation maps a session state to an
outcome, the new state, and the I/O events performed. -/
abbrev M (α : Type) : Type := Session → Outcome α × Session × List Ev

def M.pure {α : Type} (a : α) : M α := fun s => (.ok a, s, [])

def M.bind {α β : Type} (x : M α) (f : α → M β) : M β := fun s =>
  match x s with
  | (.ok a, s1, t1) => ((f a s1).1, (f a s1).2.1, t1 ++ (f a s1).2.2)
  | (.err e, s1, t1) => (.err e, s1, t1)
  | (.panic, s1, t1) => (.panic, s1, t1)

def M.throw {α : Type} (e : SessError) : M α := fun s => (.err e, s, [])

def M.panic {α : Type} : M α := fun s => (.panic, s, [])

def M.get : M Session := fun s => (.ok s, s, [])

def M.set (s1 : Session) : M Unit := fun _ => (.ok (), s1, [])

def M.emit (e : Ev) : M Unit := fun s => (.ok (), s, [e])

def M.liftE {α : Type} (x : Except SessError α) : M α := fun s =>
  match x with
  | .ok a => (.ok a, s, [])
  | .error e => (.err e, s, [])

/-- Outcome of running an operation on a session. -/
def runOut {α : Type} (m : M α) (s : Session) : Outcome α := (m s).1

/-- Session state after running an operation. -/
def runSt {α : Type} (m : M α) (s : Session) : Session := (m s).2.1

/-- I/O trace of running an operation on a session. -/
def runTr {α : Type} (m : M α) (s : Session) : List Ev := (m s).2.2

/-- Bytes of a string (`str::as_bytes`), modelled as character codes. -/
def strBytes (s : String) : List Nat := s.data.map Char.toNat

/-- Modelled from the spec: the length-prefix bytes produced by
`utils::parser::length` (outside src/); the exact wire encoding is
external, abstracted as the byte length itself. -/
def lengthBytes (data : List Nat) : List Nat := [data.length]

/-- Modelled from the spec: `utils::parser::length` (outside src/),
a fallible length-prefix encoder; in this model it always succeeds. -/
def length (data : List Nat) : Except SessError (List Nat) :=
  .ok (lengthBytes data)

/-- Modelled from the spec: `Socket::send` — async write of bytes;
fails if the transport is already closed. -/
def sockSend (data : List Nat) : M Unit :=
  M.bind M.get fun s =>
    if s.socketClosed then M.throw .socketErr
    else M.emit (.sockSend data)

/-- Modelled from the spec: `Socket::recv_usize` — reads a length
prefix, returning whatever integer the peer sent (`env.headerLen`). -/
def sockRecvUsize (env : Env) : M Nat :=
  M.bind M.get fun s =>
    if s.socketClosed then M.throw .socketErr
    else M.bind (M.emit (.sockRecvUsize env.headerLen)) fun _ =>
      M.pure env.headerLen

/-- Modelled from the spec: `Socket::recv_str` — reads a string of the
given length, returning whatever the peer sent (`env.headerStr`). -/
def sockRecvStr (env : Env) (_n : Nat) : M String :=
  M.bind M.get fun s =>
    if s.socketClosed then M.throw .socketErr
    else M.bind (M.emit (.sockRecvStr env.headerStr)) fun _ =>
      M.pure env.headerStr

/-- Modelled from the spec: `Socket::peer_addr` — the transport-level
peer address. -/
def sockPeerAddr (env : Env) : M String :=
  M.bind M.get fun s =>
    if s.socketClosed then M.throw .socketErr
    else M.bind (M.emit (.sockPeerAddr env.peerAddr)) fun _ =>
      M.pure env.peerAddr

/-- Modelled from the spec: `Socket::close` — closes the transport;
`env.sockCloseFails` selects a transport-level close failure. -/
def sockClose (env : Env) : M Unit :=
  M.bind M.get fun s =>
    if env.sockCloseFails then M.throw .socketErr
    else M.bind (M.set { s with socketClosed := true }) fun _ =>
      M.emit .sockClose

/-- Modelled from the spec: `OblivionRequest::new` parses a header line
(may fail on malformed input; malformedness is external and not
modelled, so parsing succeeds here). -/
def OblivionRequest.new (h : String) : Except SessError OblivionRequest :=
  .ok { header := h, remote_peer := none, aes_key := none }

/-- Modelled from the spec: `OblivionRequest::set_remote_peer`. -/
def OblivionRequest.set_remote_peer (r : OblivionRequest) (p : String) :
    OblivionRequest :=
  { r with remote_peer := some p }

/-- Modelled from the spec: the key-exchange object `OKE`
(`models::packet`, outside src/): own private and public key, and the
peer material and salt once learned. -/
structure OKE where
  private_key : Nat
  public_key : Nat
  remote_public_key : Option Nat
  salt : Option Nat
deriving DecidableEq, Repr

/-- Modelled from the spec: `OKE::new` is constructed from the own
private key and own public key; absent key material is a construction
error (§3 invariant 1 / §9: consumed key material must make a second
use a detectable, reported error). -/
def OKE.new (priv : Option Nat) (pub : Option Nat) : Except SessError OKE :=
  match priv, pub with
  | some p, some q =>
      .ok { private_key := p, public_key := q,
            remote_public_key := none, salt := none }
  | _, _ => .error .invalidKeyPair

/-- Modelled from the spec: abstract symmetric-key derivation from own
private key, peer public material and the exchange salt. -/
def deriveKey (priv peerPub salt : Nat) : List Nat := [priv, peerPub, salt]

/-- Modelled from the spec: `OKE::get_aes_key` — the derived key, valid
once both directions of the exchange have run. -/
def OKE.get_aes_key (o : OKE) : List Nat :=
  deriveKey o.private_key (o.remote_public_key.getD 0) (o.salt.getD 0)

/-- Modelled from the spec: `OKE::from_stream_with_salt` — receive the
peer's salted public material (public key plus salt) from the socket. -/
def OKE.from_stream_with_salt (env : Env) (o : OKE) : M OKE :=
  M.bind M.get fun s =>
    if s.socketClosed then M.throw .socketErr
    else M.bind (M.emit (.okeFromStreamWithSalt env.peerPub env.peerSalt)) fun _ =>
      M.pure { o with remote_public_key := some env.peerPub,
                      salt := some env.peerSalt }

/-- Modelled from the spec: `OKE::to_stream` — send the own public
material (completion message) to the socket. -/
def OKE.to_stream (o : OKE) : M OKE :=
  M.bind M.get fun s =>
    if s.socketClosed then M.throw .socketErr
    else M.bind (M.emit (.okeToStream o.public_key)) fun _ =>
      M.pure o

/-- Modelled from the spec: `OKE::to_stream_with_salt` — send the own
public material together with a freshly generated salt. -/
def OKE.to_stream_with_salt (env : Env) (o : OKE) : M OKE :=
  M.bind M.get fun s =>
    if s.socketClosed then M.throw .socketErr
    else M.bind (M.emit (.okeToStreamWithSalt o.public_key env.genSalt)) fun _ =>
      M.pure { o with salt := some env.genSalt }

/-- Modelled from the spec: `OKE::from_stream` — receive the peer's
completion message (its public material) from the socket. -/
def OKE.from_stream (env : Env) (o : OKE) : M OKE :=
  M.bind M.get fun s =>
    if s.socketClosed then M.throw .socketErr
    else M.bind (M.emit (.okeFromStream env.peerPub)) fun _ =>
      M.pure { o with remote_public_key := some env.peerPub }

/-- Modelled from the spec: the status-marker packet `OSC`
(`models::packet`, outside src/). -/
structure OSC where
  status_code : Nat
deriving DecidableEq, Repr

/-- Modelled from the spec: `OSC::from_u32`. -/
def OSC.from_u32 (n : Nat) : OSC := { status_code := n }

/-- Modelled from the spec: `OSC::to_stream` — write the marker. -/
def OSC.to_stream (o : OSC) : M Unit :=
  M.bind M.get fun s =>
    if s.socketClosed then M.throw .socketErr
    else M.emit (.oscToStream o.status_code)

/-- Modelled from the spec: `OSC::from_stream` — read a marker; the
code that arrives is whatever the peer sent, passed as `code`. -/
def OSC.from_stream (code : Nat) : M OSC :=
  M.bind M.get fun s =>
    if s.socketClosed then M.throw .socketErr
    else M.bind (M.emit (.oscFromStream code)) fun _ =>
      M.pure { status_code := code }

/-- Modelled from the spec: the encrypted-data packet `OED`
(`models::packet`, outside src/): optional key, payload bytes. -/
structure OED where
  aes_key : Option (List Nat)
  data : List Nat
deriving DecidableEq, Repr

/-- Modelled from the spec: `OED::new` from an optional key. -/
def OED.new (key : Option (List Nat)) : OED := { aes_key := key, data := [] }

/-- Modelled from the spec: `OED::from_bytes` — encode a payload
(fallible in the source; encryption is external, succeeds here). -/
def OED.from_bytes (o : OED) (d : List Nat) : Except SessError OED :=
  .ok { o with data := d }

/-- Modelled from the spec: `OED::to_stream` — write the packet. -/
def OED.to_stream (o : OED) : M OED :=
  M.bind M.get fun s =>
    if s.socketClosed then M.throw .socketErr
    else M.bind (M.emit (.oedToStream o.aes_key o.data)) fun _ =>
      M.pure o

/-- Modelled from the spec: `OED::from_stream` — read and decrypt a
packet; the content is whatever the peer sent (`env.recvData`). -/
def OED.from_stream (env : Env) (o : OED) : M OED :=
  M.bind M.get fun s =>
    if s.socketClosed then M.throw .socketErr
    else M.bind (M.emit (.oedFromStream o.aes_key env.recvData)) fun _ =>
      M.pure { o with data := env.recvData }

/-- Modelled from the spec: `OED::get_data` — the decoded bytes. -/
def OED.get_data (o : OED) : List Nat := o.data

/-- Modelled from the spec: the response value (`models::client`,
outside src/) assembled by `recv` from content, status code and flag. -/
structure Response where
  header : Option String
  content : List Nat
  olps : Option String
  status_code : Nat
  flag : Nat
deriving DecidableEq, Repr

/-- Modelled from the spec: `Response::new`. -/
def Response.new (h : Option String) (c : List Nat) (o : Option String)
    (sc : Nat) (fl : Nat) : Response :=
  { header := h, content := c, olps := o, status_code := sc, flag := fl }

/-- `Session::new` (responder-role constructor): fresh key pair from
the generator (its result is passed in, it is external), header absent,
`closed` false. -/
def Session.new (now : Nat) (kp : Except SessError (Nat × Nat))
    (sockClosed : Bool) : Except SessError Session :=
  match kp with
  | .error e => .error e
  | .ok (priv, pub) =>
      .ok { header := none, private_key := some priv, public_key := pub,
            aes_key := none, request_time := now, request := none,
            socketClosed := sockClosed, closed := false }

/-- `Session::new_with_header` (initiator-role constructor). -/
def Session.new_with_header (h : String) (now : Nat)
    (kp : Except SessError (Nat × Nat)) (sockClosed : Bool) :
    Except SessError Session :=
  match kp with
  | .error e => .error e
  | .ok (priv, pub) =>
      .ok { header := some h, private_key := some priv, public_key := pub,
            aes_key := none, request_time := now, request := none,
            socketClosed := sockClosed, closed := false }

/-- `Session::first_hand` (session.rs:74-91): unwrap the header (panics
when absent), write its length-prefixed bytes, take the private key
(leaving `None`), build the exchange, receive the peer's salted
material, store the derived key, send the completion. -/
def Session.first_hand (env : Env) : M Unit :=
  M.bind M.get fun s =>
    match s.header with
    | none => M.panic
    | some h =>
      M.bind (M.liftE (length (strBytes h))) fun lp =>
      M.bind (sockSend (lp ++ strBytes h)) fun _ =>
      M.bind M.get fun s1 =>
      M.bind (M.set { s1 with private_key := none }) fun _ =>
      M.bind (M.liftE (OKE.new s1.private_key (some s1.public_key))) fun oke =>
      M.bind (OKE.from_stream_with_salt env oke) fun oke1 =>
      M.bind M.get fun s2 =>
      M.bind (M.set { s2 with aes_key := some (OKE.get_aes_key oke1) }) fun _ =>
      M.bind (OKE.to_stream oke1) fun _ =>
      M.pure ()

/-- `Session::second_hand` (session.rs:93-116): read the peer address,
a length-prefixed header, parse it, take the private key, build the
exchange, send the salted material, receive the completion, store the
derived key on the request and the session, store request and header. -/
def Session.second_hand (env : Env) : M Unit :=
  M.bind (sockPeerAddr env) fun peer =>
  M.bind (sockRecvUsize env) fun len_header =>
  M.bind (sockRecvStr env len_header) fun header =>
  M.bind (M.liftE (OblivionRequest.new header)) fun req0 =>
  M.bind M.get fun s1 =>
  M.bind (M.set { s1 with private_key := none }) fun _ =>
  M.bind (M.liftE (OKE.new s1.private_key (some s1.public_key))) fun oke =>
  M.bind (OKE.to_stream_with_salt env oke) fun oke1 =>
  M.bind (OKE.from_stream env oke1) fun oke2 =>
  M.bind M.get fun s2 =>
  M.bind (M.set { s2 with
      aes_key := some (OKE.get_aes_key oke2),
      request := some { (OblivionRequest.set_remote_peer req0 peer) with
                          aes_key := some (OKE.get_aes_key oke2) },
      header := some header }) fun _ =>
  M.pure ()

/-- `Session::handshake` (session.rs:118-125): dispatch on the role
flag (`u8`, represented as `Nat`). -/
def Session.handshake (env : Env) (flag : Nat) : M Unit :=
  match flag with
  | 0 => Session.first_hand env
  | 1 => Session.second_hand env
  | _ => M.throw .unknownHandshakeFlag

/-- `Session::closed` (session.rs:182-184): read the guarded flag. -/
def Session.closedM : M Bool := fun s => (.ok s.closed, s, [])

/-- `Session::send` (session.rs:127-141): reject when closed, else
write `OSC(0)`, the encrypted payload, `OSC(status_code)`. -/
def Session.send (data : List Nat) (status_code : Nat) : M Unit :=
  M.bind Session.closedM fun c =>
  if c then M.throw .connectionClosed
  else
    M.bind (OSC.to_stream (OSC.from_u32 0)) fun _ =>
    M.bind M.get fun s =>
    M.bind (M.liftE (OED.from_bytes (OED.new s.aes_key) data)) fun oed =>
    M.bind (OED.to_stream oed) fun _ =>
    M.bind (OSC.to_stream (OSC.from_u32 status_code)) fun _ =>
    M.pure ()

/-- `Session::recv` (session.rs:152-171): reject when closed, else read
flag marker, encrypted content, status marker; build the response; when
the flag is 1, close the socket before returning. -/
def Session.recv (env : Env) : M Response :=
  M.bind Session.closedM fun c =>
  if c then M.throw .connectionClosed
  else
    M.bind (OSC.from_stream env.recvFlag) fun osc1 =>
    M.bind M.get fun s =>
    M.bind (OED.from_stream env (OED.new s.aes_key)) fun oed =>
    M.bind (OSC.from_stream env.recvStatus) fun osc2 =>
    if osc1.status_code = 1 then
      M.bind (sockClose env) fun _ =>
        M.pure (Response.new none (OED.get_data oed) none osc2.status_code
          osc1.status_code)
    else
      M.pure (Response.new none (OED.get_data oed) none osc2.status_code
        osc1.status_code)

/-- `Session::close` (session.rs:173-180): if not closed, set the flag
then close the socket; otherwise succeed without action. -/
def Session.close (env : Env) : M Unit :=
  M.bind Session.closedM fun c =>
  if !c then
    M.bind M.get fun s =>
    M.bind (M.set { s with closed := true }) fun _ =>
    sockClose env
  else M.pure ()

/-! ### Concrete fixtures used by witnesses and counterexamples -/

/-- A fresh initiator-role session: header present, key pair (11, 12),
open socket, not closed. -/
def s0 : Session :=
  { header := some ("GET"), private_key := some 11, public_key := 12,
    aes_key := none, request_time := 0, request := none,
    socketClosed := false, closed := false }

/-- A call environment with benign inputs. -/
def env0 : Env :=
  { peerAddr := "1.2.3.4", headerLen := 3, headerStr := "abc",
    peerPub := 5, peerSalt := 7, genSalt := 9, recvFlag := 0,
    recvData := [1, 2], recvStatus := 200, sockCloseFails := false }

/-! ### Claims -/

/-- Claim C4: on a Session whose closed flag is true, both send() and
recv() fail with the ConnectionClosed error, perform no socket I/O,
and leave the session state unchanged. -/
theorem c4_closed_rejects (env : Env) (data : List Nat) (code : Nat)
    (s : Session) (h : s.closed = true) :
    runOut (Session.send data code) s = .err .connectionClosed ∧
    runTr (Session.send data code) s = [] ∧
    runSt (Session.send data code) s = s ∧
    runOut (Session.recv env) s = .err .connectionClosed ∧
    runTr (Session.recv env) s = [] ∧
    runSt (Session.recv env) s = s := by
  simp [Session.send, Session.recv, Session.closedM, M.bind, M.throw,
    runOut, runTr, runSt, h]

/-- Witness for C4 at a concrete closed session. -/
theorem c4_closed_rejects_witness :
    runOut (Session.send [3, 4] 200) { s0 with closed := true } =
      .err .connectionClosed ∧
    runTr (Session.send [3, 4] 200) { s0 with closed := true } = [] ∧
    runSt (Session.send [3, 4] 200) { s0 with closed := true } =
      { s0 with closed := true } ∧
    runOut (Session.recv env0) { s0 with closed := true } =
      .err .connectionClosed ∧
    runTr (Session.recv env0) { s0 with closed := true } = [] ∧
    runSt (Session.recv env0) { s0 with closed := true } =
      { s0 with closed := true } :=
  c4_closed_rejects env0 [3, 4] 200 { s0 with closed := true } rfl

/-- Claim C5: send(payload, status_code) on a non-closed Session (with
a working socket) writes exactly three packets in order: a status
marker carrying 0, the encrypted-data packet built from the payload
with the session's symmetric key, and a status marker carrying
status_code. -/
theorem c5_send_three_packets (data : List Nat) (code : Nat) (s : Session)
    (h1 : s.closed = false) (h2 : s.socketClosed = false) :
    runOut (Session.send data code) s = .ok () ∧
    runTr (Session.send data code) s =
      [.oscToStream 0, .oedToStream s.aes_key data, .oscToStream code] := by
  simp [Session.send, Session.closedM, OSC.to_stream, OSC.from_u32,
    OED.to_stream, OED.from_bytes, OED.new, M.bind, M.get, M.liftE,
    M.emit, M.pure, M.throw, runOut, runTr, h1, h2]

/-- Witness for C5 at a concrete open session. -/
theorem c5_send_three_packets_witness :
    runOut (Session.send [3, 4] 200) s0 = .ok () ∧
    runTr (Session.send [3, 4] 200) s0 =
      [.oscToStream 0, .oedToStream s0.aes_key [3, 4], .oscToStream 200] :=
  c5_send_three_packets [3, 4] 200 s0 rfl rfl

/-- Claim C7: handshake with a role flag other than 0 and 1 fails
immediately with the unknown-handshake-flag error, performs no socket
operation, and leaves the state unchanged. -/
theorem c7_unknown_flag (env : Env) (f : Nat) (s : Session)
    (h0 : f ≠ 0) (h1 : f ≠ 1) :
    runOut (Session.handshake env f) s = .err .unknownHandshakeFlag ∧
    runTr (Session.handshake env f) s = [] ∧
    runSt (Session.handshake env f) s = s := by
  match f, h0, h1 with
  | 0, h0, _ => exact absurd rfl h0
  | 1, _, h1 => exact absurd rfl h1
  | n + 2, _, _ => exact ⟨rfl, rfl, rfl⟩

/-- Witness for C7 at flag 2. -/
theorem c7_unknown_flag_witness :
    runOut (Session.handshake env0 2) s0 = .err .unknownHandshakeFlag ∧
    runTr (Session.handshake env0 2) s0 = [] ∧
    runSt (Session.handshake env0 2) s0 = s0 :=
  c7_unknown_flag env0 2 s0 (by decide) (by decide)

/-- Claim C6: close() is idempotent: the first close() on a non-closed
Session (whose transport close succeeds) returns success, sets the
closed flag to true and closes the socket; a subsequent close() — under
any environment — returns success with no further action, and closed()
reads true after the first close. -/
theorem c6_close_idempotent (env envB : Env) (s : Session)
    (h1 : s.closed = false) (h2 : env.sockCloseFails = false) :
    runOut (Session.close env) s = .ok () ∧
    (runSt (Session.close env) s).closed = true ∧
    (runSt (Session.close env) s).socketClosed = true ∧
    runTr (Session.close env) s = [.sockClose] ∧
    runOut Session.closedM (runSt (Session.close env) s) = .ok true ∧
    runOut (Session.close envB) (runSt (Session.close env) s) = .ok () ∧
    runTr (Session.close envB) (runSt (Session.close env) s) = [] ∧
    runSt (Session.close envB) (runSt (Session.close env) s) =
      runSt (Session.close env) s := by
  simp [Session.close, Session.closedM, sockClose, M.bind, M.get, M.set,
    M.emit, M.pure, M.throw, runOut, runTr, runSt, h1, h2]

/-- Witness for C6 at a concrete open session. -/
theorem c6_close_idempotent_witness :
    runOut (Session.close env0) s0 = .ok () ∧
    (runSt (Session.close env0) s0).closed = true ∧
    (runSt (Session.close env0) s0).socketClosed = true ∧
    runTr (Session.close env0) s0 = [.sockClose] ∧
    runOut Session.closedM (runSt (Session.close env0) s0) = .ok true ∧
    runOut (Session.close env0) (runSt (Session.close env0) s0) = .ok () ∧
    runTr (Session.close env0) (runSt (Session.close env0) s0) = [] ∧
    runSt (Session.close env0) (runSt (Session.close env0) s0) =
      runSt (Session.close env0) s0 :=
  c6_close_idempotent env0 env0 s0 rfl rfl

/-- Claim C10: the first close() sets the closed flag to true before
attempting the socket close, so even when the transport close fails the
call reports the error but closed() subsequently reads true, and a
later close() — under any environment — succeeds without touching the
socket. -/
theorem c10_close_flag_before_socket (env envB : Env) (s : Session)
    (h1 : s.closed = false) (h2 : env.sockCloseFails = true) :
    runOut (Session.close env) s = .err .socketErr ∧
    (runSt (Session.close env) s).closed = true ∧
    runOut Session.closedM (runSt (Session.close env) s) = .ok true ∧
    runOut (Session.close envB) (runSt (Session.close env) s) = .ok () ∧
    runTr (Session.close envB) (runSt (Session.close env) s) = [] ∧
    runSt (Session.close envB) (runSt (Session.close env) s) =
      runSt (Session.close env) s := by
  simp [Session.close, Session.closedM, sockClose, M.bind, M.get, M.set,
    M.emit, M.pure, M.throw, runOut, runTr, runSt, h1, h2]

/-- Witness for C10 with a transport whose close fails. -/
theorem c10_close_flag_before_socket_witness :
    runOut (Session.close { env0 with sockCloseFails := true }) s0 =
      .err .socketErr ∧
    (runSt (Session.close { env0 with sockCloseFails := true }) s0).closed =
      true ∧
    runOut Session.closedM
      (runSt (Session.close { env0 with sockCloseFails := true }) s0) =
      .ok true ∧
    runOut (Session.close env0)
      (runSt (Session.close { env0 with sockCloseFails := true }) s0) =
      .ok () ∧
    runTr (Session.close env0)
      (runSt (Session.close { env0 with sockCloseFails := true }) s0) = [] ∧
    runSt (Session.close env0)
      (runSt (Session.close { env0 with sockCloseFails := true }) s0) =
      runSt (Session.close { env0 with sockCloseFails := true }) s0 :=
  c10_close_flag_before_socket { env0 with sockCloseFails := true } env0 s0
    rfl rfl

/-- Claim C9: on a non-closed Session with no symmetric key yet, send()
and recv() are not rejected at the session layer: both proceed to the
framing codecs and hand them the absent (`none`) key. -/
theorem c9_absent_key_passed_through (env : Env) (data : List Nat)
    (code : Nat) (s : Session)
    (h1 : s.closed = false) (h2 : s.socketClosed = false)
    (h3 : s.aes_key = none) (h4 : env.recvFlag ≠ 1) :
    runOut (Session.send data code) s = .ok () ∧
    runTr (Session.send data code) s =
      [.oscToStream 0, .oedToStream none data, .oscToStream code] ∧
    runOut (Session.recv env) s =
      .ok (Response.new none env.recvData none env.recvStatus env.recvFlag) ∧
    runTr (Session.recv env) s =
      [.oscFromStream env.recvFlag, .oedFromStream none env.recvData,
       .oscFromStream env.recvStatus] := by
  simp [Session.send, Session.recv, Session.closedM, OSC.to_stream,
    OSC.from_u32, OSC.from_stream, OED.to_stream, OED.from_bytes, OED.new,
    OED.from_stream, OED.get_data, Response.new, sockClose, M.bind, M.get,
    M.set, M.emit, M.pure, M.throw, M.liftE, runOut, runTr, h1, h2, h3, h4]

/-- Witness for C9 at a concrete keyless open session. -/
theorem c9_absent_key_passed_through_witness :
    runOut (Session.send [3, 4] 200) s0 = .ok () ∧
    runTr (Session.send [3, 4] 200) s0 =
      [.oscToStream 0, .oedToStream none [3, 4], .oscToStream 200] ∧
    runOut (Session.recv env0) s0 =
      .ok (Response.new none env0.recvData none env0.recvStatus
             env0.recvFlag) ∧
    runTr (Session.recv env0) s0 =
      [.oscFromStream env0.recvFlag, .oedFromStream none env0.recvData,
       .oscFromStream env0.recvStatus] :=
  c9_absent_key_passed_through env0 [3, 4] 200 s0 rfl rfl rfl (by decide)

/-- Environment whose first incoming status marker carries the terminal
flag 1. -/
def env1 : Env := { env0 with recvFlag := 1 }

/-- Claim C2 evidence: a recv() that reads terminal flag 1 closes the
underlying socket before returning, but the Session's own closed flag
stays false, so closed() still reads false — the two are left
divergent, contradicting the claimed reconciliation. -/
theorem c2_terminal_flag_divergence :
    runOut (Session.recv env1) s0 =
      .ok (Response.new none [1, 2] none 200 1) ∧
    (runSt (Session.recv env1) s0).socketClosed = true ∧
    (runSt (Session.recv env1) s0).closed = false ∧
    runOut Session.closedM (runSt (Session.recv env1) s0) = .ok false := by
  decide

/-- Claim C8: a Session built by the responder-role constructor
`Session::new` has no header, and handshake(0) on it panics (unwrap of
the absent header) before performing any socket operation. -/
theorem c8_new_headerless_handshake_panics (env : Env) (now p q : Nat)
    (b : Bool) (s : Session)
    (h : Session.new now (.ok (p, q)) b = .ok s) :
    runOut (Session.handshake env 0) s = .panic ∧
    runTr (Session.handshake env 0) s = [] ∧
    runSt (Session.handshake env 0) s = s := by
  have hs : s =
      { header := none, private_key := some p, public_key := q,
        aes_key := none, request_time := now, request := none,
        socketClosed := b, closed := false } := by
    simp [Session.new] at h
    exact h.symm
  subst hs
  exact ⟨rfl, rfl, rfl⟩

/-- Witness for C8 at a concrete responder-role session. -/
theorem c8_new_headerless_handshake_panics_witness :
    runOut (Session.handshake env0 0)
      { header := none, private_key := some 11, public_key := 12,
        aes_key := none, request_time := 0, request := none,
        socketClosed := false, closed := false } = .panic ∧
    runTr (Session.handshake env0 0)
      { header := none, private_key := some 11, public_key := 12,
        aes_key := none, request_time := 0, request := none,
        socketClosed := false, closed := false } = [] ∧
    runSt (Session.handshake env0 0)
      { header := none, private_key := some 11, public_key := 12,
        aes_key := none, request_time := 0, request := none,
        socketClosed := false, closed := false } =
      { header := none, private_key := some 11, public_key := 12,
        aes_key := none, request_time := 0, request := none,
        socketClosed := false, closed := false } :=
  c8_new_headerless_handshake_panics env0 0 11 12 false _ rfl

/-- The initiator wire behaviour asserted by claim C1, following the
claim's words (kept for comparison with the embedded code): write the
length-prefixed header, then send the own public material plus a fresh
salt, then receive the peer's completion message. -/
def firstHandClaimedTrace (env : Env) (s : Session) (hd : String) : List Ev :=
  [.sockSend (lengthBytes (strBytes hd) ++ strBytes hd),
   .okeToStreamWithSalt s.public_key env.genSalt,
   .okeFromStream env.peerPub]

/-- Counterexample to claim C1 as stated: on a concrete initiator
session the code's wire trace is not the claimed salt-sending,
completion-receiving sequence. -/
theorem c1_counterexample :
    runTr (Session.first_hand env0) s0 ≠
      firstHandClaimedTrace env0 s0 ("GET") := by
  decide

/-- Claim C1 (amended): an initiator handshake first writes the
length-prefixed header, then runs the key exchange as the
salt-receiving, completion-sending side — it receives the peer's
public material plus salt, reads the derived symmetric key out of the
exchange and stores it in the Session, and then sends its completion
message (the Session's private key having been consumed). -/
theorem c1_initiator_handshake (env : Env) (s : Session) (hd : String)
    (p : Nat) (hh : s.header = some hd) (hp : s.private_key = some p)
    (hso : s.socketClosed = false) :
    runOut (Session.first_hand env) s = .ok () ∧
    runTr (Session.first_hand env) s =
      [.sockSend (lengthBytes (strBytes hd) ++ strBytes hd),
       .okeFromStreamWithSalt env.peerPub env.peerSalt,
       .okeToStream s.public_key] ∧
    (runSt (Session.first_hand env) s).aes_key =
      some (deriveKey p env.peerPub env.peerSalt) ∧
    (runSt (Session.first_hand env) s).private_key = none := by
  obtain ⟨shd, spk, spub, sak, srt, srq, ssc, scl⟩ := s
  simp only [] at hh hp hso
  subst hh hp hso
  exact ⟨rfl, rfl, rfl, rfl⟩

/-- Witness for the amended C1 at a concrete initiator session. -/
theorem c1_initiator_handshake_witness :
    runOut (Session.first_hand env0) s0 = .ok () ∧
    runTr (Session.first_hand env0) s0 =
      [.sockSend (lengthBytes (strBytes ("GET")) ++ strBytes ("GET")),
       .okeFromStreamWithSalt env0.peerPub env0.peerSalt,
       .okeToStream s0.public_key] ∧
    (runSt (Session.first_hand env0) s0).aes_key =
      some (deriveKey 11 env0.peerPub env0.peerSalt) ∧
    (runSt (Session.first_hand env0) s0).private_key = none :=
  c1_initiator_handshake env0 s0 ("GET") 11 rfl rfl rfl

/-- Any successful handshake consumes the private key (leaving `none`)
and leaves a header stored on the Session. -/
theorem handshake_ok_consumes_key (env : Env) (f : Nat) (s : Session)
    (h : runOut (Session.handshake env f) s = .ok ()) :
    (runSt (Session.handshake env f) s).private_key = none ∧
    (runSt (Session.handshake env f) s).header.isSome = true := by
  obtain ⟨shd, spk, spub, sak, srt, srq, ssc, scl⟩ := s
  rcases f with _ | (_ | f)
  · rcases shd with _ | hd
    · exact Outcome.noConfusion h
    · cases ssc
      · rcases spk with _ | p
        · exact Outcome.noConfusion h
        · exact ⟨rfl, rfl⟩
      · exact Outcome.noConfusion h
  · cases ssc
    · rcases spk with _ | p
      · exact Outcome.noConfusion h
      · exact ⟨rfl, rfl⟩
    · exact Outcome.noConfusion h
  · exact Outcome.noConfusion h

/-- On a Session whose private key is spent (and whose header is
present, as after any successful handshake), every further handshake
attempt returns an error — for any role flag. -/
theorem handshake_spent_key_fails (env : Env) (f : Nat) (s : Session)
    (hpk : s.private_key = none) (hh : s.header.isSome = true) :
    ∃ e, runOut (Session.handshake env f) s = .err e := by
  obtain ⟨shd, spk, spub, sak, srt, srq, ssc, scl⟩ := s
  simp only [] at hpk hh
  subst hpk
  rcases shd with _ | hd
  · simp at hh
  · rcases f with _ | (_ | f)
    · cases ssc
      · exact ⟨.invalidKeyPair, rfl⟩
      · exact ⟨.socketErr, rfl⟩
    · cases ssc
      · exact ⟨.invalidKeyPair, rfl⟩
      · exact ⟨.socketErr, rfl⟩
    · exact ⟨.unknownHandshakeFlag, rfl⟩

/-- Claim C3: the private key is consumed at most once — after a
handshake has succeeded on a Session, a second handshake attempt (any
role flag, any environment) fails with a reported error instead of
silently reusing stale key material. -/
theorem c3_second_handshake_fails (envA envB : Env) (f1 f2 : Nat)
    (s : Session) (h : runOut (Session.handshake envA f1) s = .ok ()) :
    ∃ e, runOut (Session.handshake envB f2)
        (runSt (Session.handshake envA f1) s) = .err e := by
  obtain ⟨hpk, hh⟩ := handshake_ok_consumes_key envA f1 s h
  exact handshake_spent_key_fails envB f2 _ hpk hh

/-- Witness for C3: a concrete initiator handshake succeeds, and the
second attempt errs. -/
theorem c3_second_handshake_fails_witness :
    ∃ e, runOut (Session.handshake env0 0)
        (runSt (Session.handshake env0 0) s0) = .err e :=
  c3_second_handshake_fails env0 env0 0 0 s0 (by decide)
